import Mathlib

/-!
Shallow embedding of the template-switching lifecycle controller of
`src/src/BeefreeEditor.tsx` (the `setupEditor` function of the first
`BeefreeEditor` component, lines 63-197, together with the `onSave`
callback of `beeConfig`, lines 138-146).

Modelling choices:
* Template documents, session tokens and the upward save sink are opaque
  type parameters (`Doc`, `Token`, `Sink`): the controller never looks
  inside them, exactly as in the source.
* One invocation of the React effect body (`setupEditor`) is one step of
  a state machine.  The outcomes of the three external operations the
  source awaits or issues (the credential fetch, `bee.start`,
  `beeInstanceRef.current.load`) are supplied by a per-call environment
  `Env`.
* The step returns the new controller state, the list of external calls
  issued (in order), the list of error diagnostics emitted
  (`console.error` in the source, or the configured `onError` sink for a
  rejected `load`), and whether the empty-template `console.warn`
  diagnostic fired.
* Faithful ordering detail of the source: `beeInstanceRef.current = bee`
  (line 172) runs BEFORE `await bee.start(...)` (line 185), so when the
  start call rejects the instance is already stored in the ref and the
  catch block (lines 188-191) only logs; the ref is never cleared.
-/

namespace BeefreeEditor

/-- The HTTP request the controller sends to acquire a session
credential (source lines 100-104): endpoint, method and body. -/
structure AuthRequest where
  url : String
  method : String
  body : String
deriving DecidableEq, Repr

/-- The fixed authentication request issued on first-time setup:
`fetch('http://localhost:3001/proxy/bee-auth', { method: 'POST', ...,
body: JSON.stringify({ uid: 'demo-user' }) })`.  It does not depend on
the requested template. -/
def authRequest : AuthRequest :=
  { url := "http://localhost:3001/proxy/bee-auth"
    method := "POST"
    body := "\x7b\"uid\":\"demo-user\"\x7d" }

/-- The configuration object `beeConfig` built on first initialisation
(source lines 117-158): the mount container id, the locale tag, and the
captured upward save sink (`props.onSave` at capture time).  The
`onError` callback of the source is modelled by the error-event list of
a step rather than stored here. -/
structure BeeConfig (Sink : Type) where
  container : String
  language : String
  onSave : Sink
deriving DecidableEq, Repr

/-- `mkBeeConfig k` is the `beeConfig` object the source builds, with
the sink `k` captured from `props.onSave` at construction time. -/
def mkBeeConfig {Sink : Type} (k : Sink) : BeeConfig Sink :=
  { container := "beefree-react-demo", language := "en-US", onSave := k }

/-- The external editor instance as far as the controller can observe
it: the token it was constructed with (`new BeefreeSDK(token)`), and,
once `bee.start(beeConfig, ...)` has resolved, the configuration whose
callbacks the widget wired (`wired = none` while no start call has
succeeded). -/
structure BeeHandle (Token Sink : Type) where
  token : Token
  wired : Option (BeeConfig Sink)
deriving DecidableEq, Repr

/-- Controller state: the mutable ref cell `beeInstanceRef` (source
line 41).  `none` is the Uninitialised state of the spec, `some h` the
Ready state holding the handle. -/
structure Controller (Token Sink : Type) where
  beeInstance : Option (BeeHandle Token Sink)
deriving DecidableEq, Repr

/-- The controller's initial state: `useRef<any>(null)`. -/
def initController {Token Sink : Type} : Controller Token Sink :=
  { beeInstance := none }

/-- The props of one effect invocation: `props.template` (absent models
a null/undefined template, caught by the guard clause at lines 66-69)
and the host's current save sink `props.onSave`. -/
structure Props (Doc Sink : Type) where
  template : Option Doc
  onSave : Sink
deriving DecidableEq, Repr

/-- Per-call outcomes of the external collaborators: whether the
credential fetch yields a token (`none` covers both a rejected fetch
and a non-ok response, lines 106-108), whether `bee.start` resolves,
and whether `load` succeeds. -/
structure Env (Token : Type) where
  auth : Option Token
  startOk : Bool
  loadOk : Bool
deriving DecidableEq, Repr

/-- External calls the controller issues, in order: the credential
fetch, the instance construction `new BeefreeSDK(token)`, the start
call `bee.start(beeConfig, template)`, and the reload call
`beeInstanceRef.current.load(template)`. -/
inductive ExtCall (Doc : Type) where
  | auth (req : AuthRequest)
  | construct
  | start (d : Doc)
  | load (d : Doc)
deriving DecidableEq, Repr

/-- Error diagnostics the controller surfaces: the authentication
failure and start rejection logged by the catch block (lines 188-191),
a load rejection reported through the configured `onError`
(lines 153-157), and the save-payload parse failure logged at
lines 143-145. -/
inductive ErrEvent where
  | authError
  | startError
  | loadError
  | saveParseError
deriving DecidableEq, Repr

/-- Result of one `setupEditor` invocation: the new controller state,
the external calls issued, the error diagnostics emitted, and whether
the `console.warn('No template provided...')` diagnostic fired. -/
structure StepOut (Doc Token Sink : Type) where
  state : Controller Token Sink
  calls : List (ExtCall Doc)
  errors : List ErrEvent
  warned : Bool
deriving DecidableEq, Repr

/-- One invocation of `setupEditor` (source lines 64-193), run to
completion:
* no template: warn and return (lines 66-69);
* instance exists: issue `load(template)` against it; a rejection is
  surfaced through the configured `onError` (lines 72-86);
* otherwise: issue the credential fetch; on failure log and return with
  the ref still null (lines 100-108, 188-191); on success build
  `beeConfig` capturing the current `props.onSave`, construct the
  instance, STORE IT IN THE REF (line 172), then await `bee.start`
  (line 185); a start rejection is logged but the ref keeps the
  instance. -/
def setupEditor {Doc Token Sink : Type} (p : Props Doc Sink) (env : Env Token)
    (s : Controller Token Sink) : StepOut Doc Token Sink :=
  match p.template with
  | none => { state := s, calls := [], errors := [], warned := true }
  | some doc =>
    match s.beeInstance with
    | some _ =>
      { state := s
        calls := [ExtCall.load doc]
        errors := if env.loadOk then [] else [ErrEvent.loadError]
        warned := false }
    | none =>
      match env.auth with
      | none =>
        { state := s
          calls := [ExtCall.auth authRequest]
          errors := [ErrEvent.authError]
          warned := false }
      | some tok =>
        if env.startOk then
          { state :=
              { beeInstance := some { token := tok, wired := some (mkBeeConfig p.onSave) } }
            calls := [ExtCall.auth authRequest, ExtCall.construct, ExtCall.start doc]
            errors := []
            warned := false }
        else
          { state := { beeInstance := some { token := tok, wired := none } }
            calls := [ExtCall.auth authRequest, ExtCall.construct, ExtCall.start doc]
            errors := [ErrEvent.startError]
            warned := false }

/-- A whole sequence of effect invocations from a given state,
accumulating the calls and errors of every step in order. -/
def runFrom {Doc Token Sink : Type} (s : Controller Token Sink) :
    List (Props Doc Sink × Env Token) →
      Controller Token Sink × List (ExtCall Doc) × List ErrEvent
  | [] => (s, [], [])
  | (p, env) :: rest =>
    let out := setupEditor p env s
    let r := runFrom out.state rest
    (r.1, out.calls ++ r.2.1, out.errors ++ r.2.2)

/-- The `onSave` callback wired into `beeConfig` (source lines
138-146): parse the payload (`JSON.parse`, modelled by the partial
function `parse`); on success forward the parsed document to the
captured upward sink (the returned list holds one entry per sink
invocation); on failure log a parse error and forward nothing. -/
def onSaveCallback {Doc : Type} (parse : String → Option Doc)
    (payload : String) : List Doc × List ErrEvent :=
  match parse payload with
  | some t => ([t], [])
  | none => ([], [ErrEvent.saveParseError])

/-- The sink that would receive a save event in the current state: the
`onSave` of the configuration wired by the successful start call, if
any. -/
def saveTarget {Token Sink : Type} (s : Controller Token Sink) : Option Sink :=
  s.beeInstance.bind fun h => h.wired.map fun c => c.onSave

/-- Classifier for credential-fetch calls. -/
def ExtCall.isAuth {Doc : Type} : ExtCall Doc → Bool
  | .auth _ => true
  | _ => false

/-- Classifier for instance constructions. -/
def ExtCall.isConstruct {Doc : Type} : ExtCall Doc → Bool
  | .construct => true
  | _ => false

/-- Classifier for start calls. -/
def ExtCall.isStart {Doc : Type} : ExtCall Doc → Bool
  | .start _ => true
  | _ => false

/-- Classifier for load calls. -/
def ExtCall.isLoad {Doc : Type} : ExtCall Doc → Bool
  | .load _ => true
  | _ => false

/-- The document an external call carries, when it carries one. -/
def ExtCall.docArg {Doc : Type} : ExtCall Doc → Option Doc
  | .start d => some d
  | .load d => some d
  | _ => none

/-- Number of credential fetches in a call trace. -/
def countAuth {Doc : Type} (cs : List (ExtCall Doc)) : Nat :=
  cs.countP ExtCall.isAuth

/-- Number of instance constructions in a call trace. -/
def countConstruct {Doc : Type} (cs : List (ExtCall Doc)) : Nat :=
  cs.countP ExtCall.isConstruct

/-- Number of start calls in a call trace. -/
def countStart {Doc : Type} (cs : List (ExtCall Doc)) : Nat :=
  cs.countP ExtCall.isStart

/-- Number of load calls in a call trace. -/
def countLoad {Doc : Type} (cs : List (ExtCall Doc)) : Nat :=
  cs.countP ExtCall.isLoad

/-- Number of invocations in a step sequence that carry a non-empty
template. -/
def countNonEmpty {Doc Token Sink : Type}
    (steps : List (Props Doc Sink × Env Token)) : Nat :=
  steps.countP fun pe => pe.1.template.isSome

/-- A whole controller lifetime: a sequence of effect invocations from
the initial (null-ref) state. -/
def run {Doc Token Sink : Type} (steps : List (Props Doc Sink × Env Token)) :
    Controller Token Sink × List (ExtCall Doc) × List ErrEvent :=
  runFrom initController steps

/-! Helper lemmas about steps taken in the Ready state (instance
present in the ref). -/

/-- A step taken while the instance exists leaves the state untouched
and issues at most a single load call. -/
theorem setupEditor_ready {Doc Token Sink : Type} (p : Props Doc Sink)
    (env : Env Token) (s : Controller Token Sink) (h : BeeHandle Token Sink)
    (hs : s.beeInstance = some h) :
    (setupEditor p env s).state = s ∧
    (setupEditor p env s).calls =
      (match p.template with
       | none => ([] : List (ExtCall Doc))
       | some d => [ExtCall.load d]) := by
  cases hp : p.template <;> simp [setupEditor, hp, hs]

/-- A run starting in the Ready state never changes the state, issues
no credential fetch, no construction and no start call, and issues one
load call per non-empty request. -/
theorem runFrom_ready {Doc Token Sink : Type}
    (steps : List (Props Doc Sink × Env Token)) (s : Controller Token Sink)
    (h : BeeHandle Token Sink) (hs : s.beeInstance = some h) :
    (@runFrom Doc Token Sink s steps).1 = s ∧
    countAuth (@runFrom Doc Token Sink s steps).2.1 = 0 ∧
    countConstruct (@runFrom Doc Token Sink s steps).2.1 = 0 ∧
    countStart (@runFrom Doc Token Sink s steps).2.1 = 0 ∧
    countLoad (@runFrom Doc Token Sink s steps).2.1 = countNonEmpty steps := by
  induction steps generalizing s with
  | nil =>
      simp [runFrom, countAuth, countConstruct, countStart, countLoad, countNonEmpty]
  | cons pe rest ih =>
      obtain ⟨p, env⟩ := pe
      obtain ⟨hstate, hcalls⟩ := setupEditor_ready p env s h hs
      obtain ⟨ih1, ih2, ih3, ih4, ih5⟩ := ih s hs
      rw [runFrom, hstate]
      cases hp : p.template with
      | none =>
          rw [hp] at hcalls
          simp only [hcalls, List.nil_append]
          refine ⟨ih1, ih2, ih3, ih4, ?_⟩
          simp [countNonEmpty, hp, List.countP_cons] at ih5 ⊢
          exact ih5
      | some d =>
          rw [hp] at hcalls
          simp only [hcalls, List.cons_append, List.nil_append]
          refine ⟨ih1, ?_, ?_, ?_, ?_⟩ <;>
            simp only [countAuth, countConstruct, countStart, countLoad, countNonEmpty,
              List.countP_cons, ExtCall.isAuth, ExtCall.isConstruct, ExtCall.isStart,
              ExtCall.isLoad, hp, Option.isSome_some, if_true, if_false,
              ite_true, ite_false, Bool.false_eq_true] at ih2 ih3 ih4 ih5 ⊢ <;>
            omega

/-- C3: a `requestTemplate` call with an empty/absent document, in
either state, is a no-op: the controller emits the diagnostic
(`console.warn`), the state (and hence the handle) is unchanged, and no
external call and no error is issued. -/
theorem c3_empty_request_is_noop {Doc Token Sink : Type} (k : Sink)
    (env : Env Token) (s : Controller Token Sink) :
    setupEditor (⟨none, k⟩ : Props Doc Sink) env s =
      { state := s, calls := [], errors := [], warned := true } := rfl

/-- C7: once the handle is created it never reverts to absent: a step
from a state holding a handle keeps exactly that handle, and so does
any further sequence of invocations. -/
theorem c7_handle_never_reverts {Doc Token Sink : Type} (p : Props Doc Sink)
    (env : Env Token) (s : Controller Token Sink) (h : BeeHandle Token Sink)
    (steps : List (Props Doc Sink × Env Token))
    (hs : s.beeInstance = some h) :
    (setupEditor p env s).state.beeInstance = some h ∧
    (@runFrom Doc Token Sink s steps).1.beeInstance = some h := by
  constructor
  · rw [(setupEditor_ready p env s h hs).1, hs]
  · rw [(runFrom_ready steps s h hs).1, hs]

/-- Witness for C7 at a concrete Ready state and a concrete two-step
sequence. -/
theorem c7_handle_never_reverts_witness :
    ((setupEditor (⟨some 1, 9⟩ : Props Nat Nat) (⟨some 3, true, true⟩ : Env Nat)
        ⟨some ⟨7, none⟩⟩).state.beeInstance = some ⟨7, none⟩) ∧
    ((@runFrom Nat Nat Nat ⟨some ⟨7, none⟩⟩
        [(⟨some 2, 9⟩, ⟨none, false, false⟩), (⟨none, 8⟩, ⟨some 4, true, false⟩)]).1.beeInstance
      = some ⟨7, none⟩) :=
  c7_handle_never_reverts (⟨some 1, 9⟩ : Props Nat Nat) (⟨some 3, true, true⟩ : Env Nat)
    ⟨some ⟨7, none⟩⟩ ⟨7, none⟩
    [(⟨some 2, 9⟩, ⟨none, false, false⟩), (⟨none, 8⟩, ⟨some 4, true, false⟩)] rfl

/-- C1: in every lifetime whose first invocation carries a non-empty
document and whose first acquire-and-start succeeds, exactly one
credential fetch, one instance construction and one start call occur
over the whole lifetime, and each later invocation with a non-empty
document contributes exactly one load call — whatever templates, sinks
and environment outcomes the later invocations carry. -/
theorem c1_one_acquire_then_one_reload_each {Doc Token Sink : Type}
    (d : Doc) (k : Sink) (tok : Token) (lo : Bool)
    (rest : List (Props Doc Sink × Env Token)) :
    countAuth (run ((⟨some d, k⟩, ⟨some tok, true, lo⟩) :: rest)).2.1 = 1 ∧
    countConstruct (run ((⟨some d, k⟩, ⟨some tok, true, lo⟩) :: rest)).2.1 = 1 ∧
    countStart (run ((⟨some d, k⟩, ⟨some tok, true, lo⟩) :: rest)).2.1 = 1 ∧
    countLoad (run ((⟨some d, k⟩, ⟨some tok, true, lo⟩) :: rest)).2.1 = countNonEmpty rest := by
  have hstep : setupEditor (⟨some d, k⟩ : Props Doc Sink) (⟨some tok, true, lo⟩ : Env Token)
      initController =
      { state := ⟨some ⟨tok, some (mkBeeConfig k)⟩⟩
        calls := [ExtCall.auth authRequest, ExtCall.construct, ExtCall.start d]
        errors := []
        warned := false } := rfl
  obtain ⟨h1, h2, h3, h4, h5⟩ :=
    @runFrom_ready Doc Token Sink rest (⟨some ⟨tok, some (mkBeeConfig k)⟩⟩ : Controller Token Sink)
      ⟨tok, some (mkBeeConfig k)⟩ rfl
  refine ⟨?_, ?_, ?_, ?_⟩ <;>
    simp only [run, runFrom, hstep, countAuth, countConstruct, countStart, countLoad,
      List.countP_append, List.countP_cons, List.countP_nil, ExtCall.isAuth,
      ExtCall.isConstruct, ExtCall.isStart, ExtCall.isLoad, Bool.false_eq_true,
      if_true, if_false, ite_true, ite_false] at h2 h3 h4 h5 ⊢ <;>
    omega

/-- C9: the upward save sink is fixed at first initialisation: after a
successful acquire-and-start that captured sink `k0`, any further
sequence of invocations — whatever (possibly different) sinks their
props carry — leaves the wired save target exactly `k0`. -/
theorem c9_sink_fixed_at_first_start {Doc Token Sink : Type}
    (d : Doc) (k0 : Sink) (tok : Token) (lo : Bool)
    (rest : List (Props Doc Sink × Env Token)) :
    saveTarget (@runFrom Doc Token Sink
        (setupEditor (⟨some d, k0⟩ : Props Doc Sink) (⟨some tok, true, lo⟩ : Env Token)
          initController).state rest).1 = some k0 := by
  have hstep : (setupEditor (⟨some d, k0⟩ : Props Doc Sink)
      (⟨some tok, true, lo⟩ : Env Token) initController).state =
      ⟨some ⟨tok, some (mkBeeConfig k0)⟩⟩ := rfl
  rw [hstep,
    (@runFrom_ready Doc Token Sink rest ⟨some ⟨tok, some (mkBeeConfig k0)⟩⟩
      ⟨tok, some (mkBeeConfig k0)⟩ rfl).1]
  rfl

/-- C10: the authentication request issued on first-time setup is one
fixed request — same endpoint, same method, same fixed user identifier
body — and in particular identical for any two requested documents. -/
theorem c10_auth_request_independent_of_document {Doc Token Sink : Type}
    (d d1 d2 : Doc) (k : Sink) (env : Env Token) :
    ((setupEditor (⟨some d, k⟩ : Props Doc Sink) env initController).calls.filter
        ExtCall.isAuth = [ExtCall.auth authRequest]) ∧
    ((setupEditor (⟨some d1, k⟩ : Props Doc Sink) env initController).calls.filter
        ExtCall.isAuth =
      (setupEditor (⟨some d2, k⟩ : Props Doc Sink) env initController).calls.filter
        ExtCall.isAuth) ∧
    authRequest =
      ⟨"http://localhost:3001/proxy/bee-auth", "POST", "\x7b\"uid\":\"demo-user\"\x7d"⟩ := by
  have key : ∀ dd : Doc,
      (setupEditor (⟨some dd, k⟩ : Props Doc Sink) env initController).calls.filter
        ExtCall.isAuth = [ExtCall.auth authRequest] := by
    intro dd
    rcases env with ⟨auth, so, lo⟩
    cases auth <;> cases so <;> rfl
  exact ⟨key d, (key d1).trans (key d2).symm, rfl⟩

/-- C2 counterexample: a first call whose credential fetch succeeds but
whose start call rejects (a `StartError`) does NOT leave the state
Uninitialised — the instance was stored in the ref before the start
call — and the following call with a valid document issues a reload
against that stored instance with zero credential fetches, not a fresh
acquire-and-start. -/
theorem c2_counterexample_start_failure_keeps_handle :
    ((setupEditor (⟨some 1, 0⟩ : Props Nat Nat) (⟨some 5, false, true⟩ : Env Nat)
        initController).state.beeInstance ≠ none) ∧
    ((setupEditor (⟨some 2, 0⟩ : Props Nat Nat) (⟨some 6, true, true⟩ : Env Nat)
        (setupEditor (⟨some 1, 0⟩ : Props Nat Nat) (⟨some 5, false, true⟩ : Env Nat)
          initController).state).calls = [ExtCall.load 2]) ∧
    (countAuth ((setupEditor (⟨some 2, 0⟩ : Props Nat Nat) (⟨some 6, true, true⟩ : Env Nat)
        (setupEditor (⟨some 1, 0⟩ : Props Nat Nat) (⟨some 5, false, true⟩ : Env Nat)
          initController).state).calls) = 0) := by
  refine ⟨?_, rfl, rfl⟩
  simp [setupEditor, initController]

/-- C2 amended: if the first non-empty `requestTemplate` call fails
with `AuthenticationError` (credential fetch yields no token), the
state remains Uninitialised and a following call performs a fresh
acquire-and-start attempt; but if it fails with `StartError`, the
instance has already been constructed and stored (unwired) before the
start call, so the handle is present and the following call performs a
reload against it, not a fresh acquire-and-start. -/
theorem c2_amended_first_failure_behaviour {Doc Token Sink : Type}
    (d d1 : Doc) (k k1 : Sink) (env env1 : Env Token) :
    ((setupEditor (⟨some d, k⟩ : Props Doc Sink) env initController).state.beeInstance =
      (match env.auth with
       | none => none
       | some tok => some ⟨tok, if env.startOk then some (mkBeeConfig k) else none⟩)) ∧
    ((setupEditor (⟨some d1, k1⟩ : Props Doc Sink) env1
        (setupEditor (⟨some d, k⟩ : Props Doc Sink) env initController).state).calls =
      (match env.auth with
       | none =>
         (match env1.auth with
          | none => [ExtCall.auth authRequest]
          | some _ => [ExtCall.auth authRequest, ExtCall.construct, ExtCall.start d1])
       | some _ => [ExtCall.load d1])) := by
  rcases env with ⟨auth, so, lo⟩
  rcases env1 with ⟨auth1, so1, lo1⟩
  cases auth <;> cases auth1 <;> cases so <;> cases so1 <;> exact ⟨rfl, rfl⟩

/-- C5: a reload that fails while Ready leaves the state (and the
handle) exactly as it was, surfaces a `LoadError`, and the next
non-empty call issues another reload against the same handle — not an
acquire-and-start. -/
theorem c5_load_failure_stays_ready {Doc Token Sink : Type}
    (p p1 : Props Doc Sink) (env env1 : Env Token) (s : Controller Token Sink)
    (h : BeeHandle Token Sink) (d d1 : Doc)
    (hs : s.beeInstance = some h) (hd : p.template = some d)
    (hfail : env.loadOk = false) (hd1 : p1.template = some d1) :
    (setupEditor p env s).state = s ∧
    (setupEditor p env s).errors = [ErrEvent.loadError] ∧
    (setupEditor p1 env1 (setupEditor p env s).state).calls = [ExtCall.load d1] := by
  have h1 := (setupEditor_ready p env s h hs).1
  refine ⟨h1, ?_, ?_⟩
  · simp [setupEditor, hd, hs, hfail]
  · rw [h1]
    have h2 := (setupEditor_ready p1 env1 s h hs).2
    rw [hd1] at h2
    exact h2

/-- Witness for C5 at a concrete Ready state with a failing load. -/
theorem c5_load_failure_stays_ready_witness :
    ((setupEditor (⟨some 1, 0⟩ : Props Nat Nat) (⟨some 9, true, false⟩ : Env Nat)
        (⟨some ⟨5, none⟩⟩ : Controller Nat Nat)).state = ⟨some ⟨5, none⟩⟩) ∧
    ((setupEditor (⟨some 1, 0⟩ : Props Nat Nat) (⟨some 9, true, false⟩ : Env Nat)
        (⟨some ⟨5, none⟩⟩ : Controller Nat Nat)).errors = [ErrEvent.loadError]) ∧
    ((setupEditor (⟨some 2, 0⟩ : Props Nat Nat) (⟨some 9, true, true⟩ : Env Nat)
        (setupEditor (⟨some 1, 0⟩ : Props Nat Nat) (⟨some 9, true, false⟩ : Env Nat)
          (⟨some ⟨5, none⟩⟩ : Controller Nat Nat)).state).calls = [ExtCall.load 2]) :=
  c5_load_failure_stays_ready (⟨some 1, 0⟩ : Props Nat Nat) (⟨some 2, 0⟩ : Props Nat Nat)
    (⟨some 9, true, false⟩ : Env Nat) (⟨some 9, true, true⟩ : Env Nat)
    (⟨some ⟨5, none⟩⟩ : Controller Nat Nat) ⟨5, none⟩ 1 2 rfl rfl rfl rfl

/-- C4: the `onSave` callback forwards to the upward sink exactly once
(and with exactly the parsed document) when the payload parses, and
forwards nothing while reporting a `SaveParseError` exactly when the
payload does not parse. -/
theorem c4_onsave_forwards_iff_parses {Doc : Type} (parse : String → Option Doc)
    (payload : String) :
    ((onSaveCallback parse payload).1.length =
       if (parse payload).isSome then 1 else 0) ∧
    (∀ t, t ∈ (onSaveCallback parse payload).1 → parse payload = some t) ∧
    (ErrEvent.saveParseError ∈ (onSaveCallback parse payload).2 ↔
       parse payload = none) := by
  cases hp : parse payload <;> simp [onSaveCallback, hp]

/-- Witness for C4 with a concrete parser, a parsing payload checked by
applying the theorem there. -/
theorem c4_onsave_forwards_iff_parses_witness :
    (((onSaveCallback (fun s => if s = "good" then some (7 : Nat) else none) "good").1.length =
       if ((fun s => if s = "good" then some (7 : Nat) else none) "good").isSome
       then 1 else 0)) ∧
    (∀ t, t ∈ (onSaveCallback (fun s => if s = "good" then some (7 : Nat) else none)
        "good").1 →
       (fun s => if s = "good" then some (7 : Nat) else none) "good" = some t) ∧
    (ErrEvent.saveParseError ∈
        (onSaveCallback (fun s => if s = "good" then some (7 : Nat) else none) "good").2 ↔
       (fun s => if s = "good" then some (7 : Nat) else none) "good" = none) :=
  c4_onsave_forwards_iff_parses (fun s => if s = "good" then some (7 : Nat) else none) "good"

/-- C6: within one invocation no external operation is retried (at most
one credential fetch, one construction, one start, one load), and each
error kind is surfaced exactly when the corresponding external
operation is reached and fails. -/
theorem c6_errors_surfaced_no_auto_retry {Doc Token Sink : Type}
    (p : Props Doc Sink) (env : Env Token) (s : Controller Token Sink)
    (parse : String → Option Doc) (payload : String) :
    countAuth (setupEditor p env s).calls ≤ 1 ∧
    countConstruct (setupEditor p env s).calls ≤ 1 ∧
    countStart (setupEditor p env s).calls ≤ 1 ∧
    countLoad (setupEditor p env s).calls ≤ 1 ∧
    (ErrEvent.authError ∈ (setupEditor p env s).errors ↔
       (p.template.isSome = true ∧ s.beeInstance = none ∧ env.auth = none)) ∧
    (ErrEvent.startError ∈ (setupEditor p env s).errors ↔
       (p.template.isSome = true ∧ s.beeInstance = none ∧ env.auth.isSome = true ∧
        env.startOk = false)) ∧
    (ErrEvent.loadError ∈ (setupEditor p env s).errors ↔
       (p.template.isSome = true ∧ s.beeInstance.isSome = true ∧ env.loadOk = false)) ∧
    (ErrEvent.saveParseError ∈ (onSaveCallback parse payload).2 ↔
       parse payload = none) := by
  rcases p with ⟨t, k⟩
  rcases env with ⟨auth, so, lo⟩
  rcases s with ⟨inst⟩
  cases t <;> cases inst <;> cases auth <;> cases so <;> cases lo <;>
    cases hp : parse payload <;>
    simp [setupEditor, onSaveCallback, countAuth, countConstruct, countStart, countLoad,
      ExtCall.isAuth, ExtCall.isConstruct, ExtCall.isStart, ExtCall.isLoad,
      List.countP_cons, List.countP_nil, hp]

/-- C8: the controller treats the document as opaque: every external
call either carries no document or carries exactly the requested
document unchanged, and the resulting state, error output and
diagnostic are identical for any two requested documents. -/
theorem c8_document_opaque_passthrough {Doc Token Sink : Type}
    (d d1 d2 : Doc) (k : Sink) (env : Env Token) (s : Controller Token Sink) :
    (∀ c ∈ (setupEditor (⟨some d, k⟩ : Props Doc Sink) env s).calls,
       c.docArg = none ∨ c.docArg = some d) ∧
    ((setupEditor (⟨some d1, k⟩ : Props Doc Sink) env s).state =
      (setupEditor (⟨some d2, k⟩ : Props Doc Sink) env s).state) ∧
    ((setupEditor (⟨some d1, k⟩ : Props Doc Sink) env s).errors =
      (setupEditor (⟨some d2, k⟩ : Props Doc Sink) env s).errors) ∧
    ((setupEditor (⟨some d1, k⟩ : Props Doc Sink) env s).warned =
      (setupEditor (⟨some d2, k⟩ : Props Doc Sink) env s).warned) := by
  rcases env with ⟨auth, so, lo⟩
  rcases s with ⟨inst⟩
  cases inst <;> cases auth <;> cases so <;>
    simp [setupEditor, ExtCall.docArg]

/-- Witness for C8 at a concrete first-time setup. -/
theorem c8_document_opaque_passthrough_witness :
    (∀ c ∈ (setupEditor (⟨some 3, 0⟩ : Props Nat Nat) (⟨some 5, true, true⟩ : Env Nat)
        (initController : Controller Nat Nat)).calls,
       c.docArg = none ∨ c.docArg = some 3) ∧
    ((setupEditor (⟨some 4, 0⟩ : Props Nat Nat) (⟨some 5, true, true⟩ : Env Nat)
        (initController : Controller Nat Nat)).state =
      (setupEditor (⟨some 6, 0⟩ : Props Nat Nat) (⟨some 5, true, true⟩ : Env Nat)
        (initController : Controller Nat Nat)).state) ∧
    ((setupEditor (⟨some 4, 0⟩ : Props Nat Nat) (⟨some 5, true, true⟩ : Env Nat)
        (initController : Controller Nat Nat)).errors =
      (setupEditor (⟨some 6, 0⟩ : Props Nat Nat) (⟨some 5, true, true⟩ : Env Nat)
        (initController : Controller Nat Nat)).errors) ∧
    ((setupEditor (⟨some 4, 0⟩ : Props Nat Nat) (⟨some 5, true, true⟩ : Env Nat)
        (initController : Controller Nat Nat)).warned =
      (setupEditor (⟨some 6, 0⟩ : Props Nat Nat) (⟨some 5, true, true⟩ : Env Nat)
        (initController : Controller Nat Nat)).warned) :=
  c8_document_opaque_passthrough 3 4 6 0 (⟨some 5, true, true⟩ : Env Nat)
    (initController : Controller Nat Nat)

end BeefreeEditor
